import Mathlib

/-!
Shallow embedding of the entity-enrichment pipeline
(`src/search.py`, `src/llm_processing.py`, `src/main.py`).

Python strings are modelled as Lean `String`s manipulated through their
underlying `List Char`; Python truthiness of the dynamic dictionary values
is made explicit through `Bool`-valued truthiness functions.  The two
network effects (the HTTP search request and the chat-completion call) are
modelled as oracles passed in as parameters; sleeps are recorded as traces
of durations (in the source's time units, i.e. seconds).
-/

deriving instance DecidableEq for Except

namespace AIAgent

/-! ## Python string primitives -/

/-- The `'\x7b'` character, written via its code point. -/
def lbrace : Char := Char.ofNat 123

/-- The `'\x7d'` character, written via its code point. -/
def rbrace : Char := Char.ofNat 125

/-- Python `str.strip` whitespace set: space, tab, newline, carriage
return, vertical tab, form feed. -/
def pyIsSpace (c : Char) : Bool :=
  c == ' ' || c == '\t' || c == '\n' || c == '\r' ||
  c == Char.ofNat 11 || c == Char.ofNat 12

/-- Python `s.strip()` on the character list: drop whitespace from both
ends. -/
def pyStripList (l : List Char) : List Char :=
  List.rdropWhile pyIsSpace (List.dropWhile pyIsSpace l)

/-- Python `s.strip()`. -/
def pyStrip (s : String) : String := String.mk (pyStripList s.data)

/-- Python `s.lower()` (ASCII case folding, which covers every string the
program compares). -/
def pyLower (s : String) : String := String.mk (s.data.map Char.toLower)

/-- Python `s.split('\n')[0]`: the text before the first newline. -/
def firstLine (s : String) : String :=
  String.mk (s.data.takeWhile (fun c => c != '\n'))

/-- Python `s.startswith(p)`. -/
def pyStartsWith (s p : String) : Bool := p.data.isPrefixOf s.data

/-- Python `s[n:]`. -/
def pyDrop (s : String) (n : Nat) : String := String.mk (s.data.drop n)

/-- Python `len(s)`. -/
def pyLen (s : String) : Nat := s.data.length

/-- `needle` occurs as a contiguous run inside `hay` (Python `in`). -/
def containsRun (needle : List Char) : List Char → Bool
  | [] => needle.isEmpty
  | c :: t => needle.isPrefixOf (c :: t) || containsRun needle t

/-- Python `needle in hay` for strings. -/
def pyContains (hay needle : String) : Bool := containsRun needle.data hay.data

/-- One step of Python `str.format` field substitution.  Models the subset
the program uses: plain identifier fields (no conversion or format spec),
`\x7b\x7b`/`\x7d\x7d` escapes.  The only known key is `entity`; any other
field name raises `KeyError`, whose `str` is the quoted name.  The fuel
argument (instantiated with the length of the template) only guarantees
termination and is never exhausted on that instantiation. -/
def pyFormatAux (entity : String) : Nat → List Char → Except String (List Char)
  | _, [] => .ok []
  | 0, _ :: _ => .error "format internal error: out of fuel"
  | fuel+1, c :: rest =>
    if c = lbrace then
      match rest with
      | [] => .error "Single \x27\x7b\x27 encountered in format string"
      | d :: rest2 =>
        if d = lbrace then
          (pyFormatAux entity fuel rest2).map (fun t => lbrace :: t)
        else
          let name := rest.takeWhile (fun x => x != rbrace)
          match rest.dropWhile (fun x => x != rbrace) with
          | [] => .error "Single \x27\x7b\x27 encountered in format string"
          | _ :: rest3 =>
            if String.mk name = "entity" then
              (pyFormatAux entity fuel rest3).map (fun t => entity.data ++ t)
            else
              .error ("\x27" ++ String.mk name ++ "\x27")
    else if c = rbrace then
      match rest with
      | [] => .error "Single \x27\x7d\x27 encountered in format string"
      | d :: rest2 =>
        if d = rbrace then
          (pyFormatAux entity fuel rest2).map (fun t => rbrace :: t)
        else
          .error "Single \x27\x7d\x27 encountered in format string"
    else
      (pyFormatAux entity fuel rest).map (fun t => c :: t)

/-- Python `template.format(entity=entity)`: substitute the entity into
the query template, or raise (as an `Except.error`) on a malformed
template or an unknown field name. -/
def pyFormatEntity (template entity : String) : Except String String :=
  (pyFormatAux entity template.data.length template.data).map String.mk

/-! ## Data model -/

/-- One organic search hit as the code projects it
(`src/search.py` lines 77–82): the four `result.get(...)` values, each
possibly missing.  `title`, `link`, `snippet` are JSON strings and
`position` a JSON integer, per the response schema in the spec. -/
structure ResultRecord where
  title : Option String
  link : Option String
  snippet : Option String
  position : Option Int
deriving DecidableEq, Repr

/-- The dynamic value stored under the `search_results` key of a search
outcome dictionary: Python `None`, a list of records, or the sentinel
string. -/
inductive SearchResultsVal where
  | none
  | list (rs : List ResultRecord)
  | str (s : String)
deriving DecidableEq, Repr

/-- A `SearchOutcome` dictionary as built by `SearchEngine`: keys
`entity`, `search_results`, and optionally `error`. -/
structure SearchOutcome where
  entity : String
  search_results : SearchResultsVal
  error : Option String
deriving DecidableEq, Repr

/-- An `ExtractionOutcome` / `PipelineResult` dictionary: keys `entity`,
`extracted_info`, and optionally `confidence` and `error` (the error
dictionaries built in `src/main.py` omit both optional keys). -/
structure ExtractionOutcome where
  entity : String
  extracted_info : String
  confidence : Option Rat
  error : Option String
deriving DecidableEq, Repr

/-- Python truthiness of an optional string value (`None` and `""` are
falsy). -/
def optStrTruthy : Option String → Bool
  | Option.none => false
  | Option.some s => !s.data.isEmpty

/-- Python truthiness of an optional integer value (`None` and `0` are
falsy). -/
def optIntTruthy : Option Int → Bool
  | Option.none => false
  | Option.some n => n != 0

/-- Python truthiness of a `search_results` value: `None`, `[]` and `""`
are falsy, everything else truthy. -/
def searchResultsTruthy : SearchResultsVal → Bool
  | .none => false
  | .list rs => !rs.isEmpty
  | .str s => !s.data.isEmpty

/-! ## SearchEngine (`src/search.py`) -/

/-- `SearchEngine.max_retries` (constructor, line 9). -/
def searchMaxRetries : Nat := 3

/-- `SearchEngine.retry_delay` (constructor, line 10). -/
def searchRetryDelay : Nat := 2

/-- What `response.json()` plus the `organic_results` projection yields
inside `_process_response`: either the list of projected records
(`data.get("organic_results", [])` defaulting to `[]`), or the message of
the exception the parsing raised. -/
inductive ParsedBody where
  | ok (organic : List ResultRecord)
  | exn (msg : String)
deriving DecidableEq, Repr

/-- What one HTTP attempt of `requests.get` yields, as the code observes
it: an ok response carrying a body, a non-ok response with a status code,
or a `RequestException`. -/
inductive HttpAttempt where
  | ok (body : ParsedBody)
  | status (code : Nat)
  | netError (msg : String)
deriving DecidableEq, Repr

/-- `all(processed_result.values())` (line 85): every one of the four
projected fields is truthy. -/
def pyAllFields (r : ResultRecord) : Bool :=
  optStrTruthy r.title && optStrTruthy r.link &&
  optStrTruthy r.snippet && optIntTruthy r.position

/-- `SearchEngine._process_response` (lines 67–98): filter the organic
results down to the records whose four projected fields are all truthy;
an empty filtered list is replaced by the sentinel string; any parsing
exception becomes an error outcome. -/
def _process_response (entity : String) : ParsedBody → SearchOutcome
  | .ok organic =>
    let filtered := organic.filter pyAllFields
    { entity := entity
      search_results :=
        if filtered.isEmpty then .str "No relevant results found."
        else .list filtered
      error := Option.none }
  | .exn msg =>
    { entity := entity
      search_results := .none
      error := Option.some ("Failed to process results: " ++ msg) }

/-- The `for attempt in range(self.max_retries)` loop of
`SearchEngine._execute_search` (lines 32–65), recursing on the number of
remaining iterations; `attempt` is the Python loop index.  Returns the
outcome together with the trace of `time.sleep` durations.  The `0` case
is the fall-through return after the loop (lines 61–65). -/
def execSearchLoop (entity : String) (http : Nat → HttpAttempt) :
    Nat → Nat → SearchOutcome × List Nat
  | _, 0 =>
    ({ entity := entity
       search_results := .none
       error := Option.some
         ("Request failed after " ++ toString searchMaxRetries ++ " attempts") }, [])
  | attempt, rem+1 =>
    match http attempt with
    | .ok body => (_process_response entity body, [])
    | .status code =>
      if code = 429 then
        let r := execSearchLoop entity http (attempt+1) rem
        (r.1, searchRetryDelay * (attempt + 1) :: r.2)
      else
        execSearchLoop entity http (attempt+1) rem
    | .netError msg =>
      if attempt = searchMaxRetries - 1 then
        ({ entity := entity
           search_results := .none
           error := Option.some
             ("Request failed after " ++ toString searchMaxRetries ++
              " attempts: " ++ msg) }, [])
      else
        let r := execSearchLoop entity http (attempt+1) rem
        (r.1, searchRetryDelay :: r.2)

/-- `SearchEngine._execute_search(entity, query)` (lines 28–65).  The
`query` argument is what the code sends over HTTP; the HTTP exchange
itself is the oracle `http`, indexed by the attempt number. -/
def _execute_search (entity query : String) (http : Nat → HttpAttempt) :
    SearchOutcome × List Nat :=
  let _ := query
  execSearchLoop entity http 0 searchMaxRetries

/-! ## LLMProcessor (`src/llm_processing.py`) -/

/-- One item of the `formatted` list built at lines 66–69:
`"Result \x7bidx\x7d:\nTitle: ...\nSnippet: ...\nURL: ...\n"`, with each
field read through `result.get(key, '')`. -/
def fmtRecord (idx : Nat) (r : ResultRecord) : String :=
  "Result " ++ toString idx ++ ":\n" ++
  "Title: " ++ r.title.getD "" ++ "\n" ++
  "Snippet: " ++ r.snippet.getD "" ++ "\n" ++
  "URL: " ++ r.link.getD "" ++ "\n"

/-- The `enumerate(results, 1)` loop of `_format_search_results`. -/
def fmtRecords (idx : Nat) : List ResultRecord → List String
  | [] => []
  | r :: rest => fmtRecord idx r :: fmtRecords (idx+1) rest

/-- `LLMProcessor._format_search_results` (lines 57–71): a string value is
returned unchanged; a list is rendered as numbered blocks joined by
newlines; iterating Python `None` raises a `TypeError`, modelled as the
`Except.error` case. -/
def _format_search_results : SearchResultsVal → Except String String
  | .str s => .ok s
  | .list rs => .ok (String.intercalate "\n" (fmtRecords 1 rs))
  | .none => .error "TypeError: NoneType object is not iterable"

/-- The prompt text assembled by `_construct_prompt` once the query
substitution `q` has succeeded. -/
def promptText (entity q formatted : String) : String :=
  "TASK: Extract specific information from web search results for " ++
  entity ++ ".\n\nQUERY: " ++ q ++
  "\n\nINSTRUCTIONS:\n1. Analyze the search results below\n" ++
  "2. Extract ONLY the information that directly answers the query\n" ++
  "3. Provide the answer in a single, concise line\n" ++
  "4. If the specific information is not found, respond with \"Not found\"\n" ++
  "5. Do not include any explanations or additional context\n\n" ++
  "SEARCH RESULTS:\n" ++ formatted ++ "\n\nANSWER:"

/-- `LLMProcessor._construct_prompt` (lines 73–91): the fixed-structure
instruction prompt around the substituted query and the formatted
results.  `template.format(entity=entity)` may raise, which propagates. -/
def _construct_prompt (entity template formatted : String) :
    Except String String :=
  match pyFormatEntity template entity with
  | .error e => .error e
  | .ok q => .ok (promptText entity q formatted)

/-- `prefixes_to_remove` (lines 121–124). -/
def prefixes_to_remove (entity : String) : List String :=
  ["Answer:", "Response:", "Result:", entity ++ ":", "The answer is:",
   "Information:"]

/-- One iteration of the prefix-removal loop (lines 126–128). -/
def stripOneLeading (acc p : String) : String :=
  if pyStartsWith acc p then pyStrip (pyDrop acc (pyLen p)) else acc

/-- The `for prefix in prefixes_to_remove` loop: each prefix is tried
once, in list order, against the progressively stripped string. -/
def stripLeadingAll (entity cleaned : String) : String :=
  (prefixes_to_remove entity).foldl stripOneLeading cleaned

/-- `LLMProcessor._validate_response` (lines 113–137): first line,
stripped; boilerplate prefixes removed; confidence `1.0` unless the
cleaned text lower-cases to `"not found"`, then `0.0`. -/
def _validate_response (response entity : String) : ExtractionOutcome :=
  let cleaned := stripLeadingAll entity (pyStrip (firstLine response))
  { entity := entity
    extracted_info := cleaned
    confidence := if pyLower cleaned = "not found" then Option.some 0 else Option.some 1
    error := Option.none }

/-- `LLMProcessor._process_single_result` (lines 32–55).  The language
model call (`_get_llm_response`, whose return value is already
`.strip()`ped) is the oracle `llm`, mapping the prompt to either the
model text or the message of a raised exception.  Formatting and prompt
construction stand *outside* the `try` block in the source, so their
failures propagate as `Except.error`; only the model call and validation
are guarded, their failures becoming the `"Error in processing"`
dictionary. -/
def _process_single_result (result : SearchOutcome) (template : String)
    (llm : String → Except String String) : Except String ExtractionOutcome :=
  match _format_search_results result.search_results with
  | .error e => .error e
  | .ok formatted =>
    match _construct_prompt result.entity template formatted with
    | .error e => .error e
    | .ok prompt =>
      match llm prompt with
      | .ok response => .ok (_validate_response response result.entity)
      | .error e =>
        .ok { entity := result.entity
              extracted_info := "Error in processing"
              confidence := Option.some 0
              error := Option.some e }

/-- The loop body of `LLMProcessor.process_results` (lines 18–28) for one
search outcome.  Returns the produced dictionary together with the number
of language-model invocations made (0 when the guard at line 19
short-circuits, 1 once `_process_single_result` reaches the model call);
an exception escaping `_process_single_result` propagates. -/
def processResultsStep (result : SearchOutcome) (template : String)
    (llm : String → Except String String) :
    Except String (ExtractionOutcome × Nat) :=
  if !searchResultsTruthy result.search_results || optStrTruthy result.error then
    .ok ({ entity := result.entity
           extracted_info := "Not found"
           confidence := Option.some 0
           error := Option.none }, 0)
  else
    (_process_single_result result template llm).map (fun eo => (eo, 1))

/-! ## AIAgentApp (`src/main.py`) -/

/-- The body of one `try` block of `process_entity_with_retry`
(lines 28–44): format the query (may raise), run the search, raise the
outcome's error if it is truthy, otherwise run extraction (whose own
escaping exceptions propagate into this block). -/
def attemptBody (entity template : String) (http : Nat → HttpAttempt)
    (llm : String → Except String String) : Except String ExtractionOutcome :=
  match pyFormatEntity template entity with
  | .error e => .error e
  | .ok query =>
    match ((_execute_search entity query http).1).error with
    | Option.some err =>
      if err.data.isEmpty
      then _process_single_result ((_execute_search entity query http).1) template llm
      else .error err
    | Option.none =>
      _process_single_result ((_execute_search entity query http).1) template llm

/-- The `for attempt in range(max_retries)` loop of
`process_entity_with_retry` (lines 27–59), recursing on the remaining
iterations; the oracles are indexed by the pipeline attempt number.
Returns the result together with the trace of the loop's own
`time.sleep(2 ** attempt)` backoff durations (the sleeps inside
`_execute_search` are accounted for in that function's own trace).  The
`0` case is the defensive fall-through return (lines 55–59). -/
def retryLoop (entity template : String) (http : Nat → Nat → HttpAttempt)
    (llm : Nat → String → Except String String) (max_retries : Nat) :
    Nat → Nat → ExtractionOutcome × List Nat
  | _, 0 =>
    ({ entity := entity
       extracted_info := "Failed after all retries"
       confidence := Option.none
       error := Option.none }, [])
  | attempt, rem+1 =>
    match attemptBody entity template (http attempt) (llm attempt) with
    | .ok r => (r, [])
    | .error e =>
      if attempt = max_retries - 1 then
        ({ entity := entity
           extracted_info := "Error: " ++ e
           confidence := Option.none
           error := Option.none }, [])
      else
        let r := retryLoop entity template http llm max_retries (attempt+1) rem
        (r.1, 2 ^ attempt :: r.2)

/-- `AIAgentApp.process_entity_with_retry(entity, query_template,
max_retries)` (lines 25–59). -/
def process_entity_with_retry (entity template : String)
    (http : Nat → Nat → HttpAttempt)
    (llm : Nat → String → Except String String) (max_retries : Nat) :
    ExtractionOutcome × List Nat :=
  retryLoop entity template http llm max_retries 0 max_retries

/-- `pandas.unique` on the entity column: keep the first occurrence of
each value, in input order. -/
def pyUniqueAux (seen : List String) : List String → List String
  | [] => []
  | x :: rest =>
    if x ∈ seen then pyUniqueAux seen rest
    else x :: pyUniqueAux (x :: seen) rest

/-- `data[main_column].dropna().unique().tolist()` applied after the
`dropna`: deduplicate, preserving input order. -/
def pyUnique (l : List String) : List String := pyUniqueAux [] l

/-- The `for idx, entity in enumerate(entities)` loop of `process_data`
(lines 84–104): one `process_entity_with_retry` call per entity (always
called with the default `max_retries = 3`), collecting results in order
and recording in the failure list every entity whose `extracted_info`
contains the substring `"Error"`.  The loop's own `except` arm is
unreachable: `process_entity_with_retry` catches every exception
internally, which the totality of its embedding reflects. -/
def processLoop (template : String) (http : String → Nat → Nat → HttpAttempt)
    (llm : String → Nat → String → Except String String) :
    List String → List ExtractionOutcome × List String
  | [] => ([], [])
  | e :: rest =>
    let r := (process_entity_with_retry e template (http e) (llm e) 3).1
    let rs := processLoop template http llm rest
    (r :: rs.1,
     if pyContains r.extracted_info "Error" then e :: rs.2 else rs.2)

/-- `AIAgentApp.process_data` (lines 61–119), stripped of the UI-only
progress and display calls: drop the missing cells (pandas `NaN`,
modelled as `Option.none`), deduplicate, and bail out (`Option.none`)
when no entities remain (the `st.error` early return at lines 66–68);
otherwise return the ordered results and the failed-entities list. -/
def process_data (rows : List (Option String)) (template : String)
    (http : String → Nat → Nat → HttpAttempt)
    (llm : String → Nat → String → Except String String) :
    Option (List ExtractionOutcome × List String) :=
  let entities := pyUnique (rows.filterMap id)
  if entities.isEmpty then Option.none
  else Option.some (processLoop template http llm entities)

/-! ## Helper lemmas -/

theorem optStrTruthy_append_left (x y : String)
    (h : optStrTruthy (Option.some x) = true) :
    optStrTruthy (Option.some (x ++ y)) = true := by
  have h' : (!x.data.isEmpty) = true := h
  show (!(x ++ y).data.isEmpty) = true
  rw [String.data_append]
  cases hx : x.data with
  | nil => rw [hx] at h'; simp at h'
  | cons c t => simp

theorem isPrefixOf_self_append (l r : List Char) :
    l.isPrefixOf (l ++ r) = true := by
  induction l with
  | nil => simp [List.isPrefixOf]
  | cons c t ih => simp [List.isPrefixOf, ih]

theorem containsRun_of_isPrefixOf (n h : List Char)
    (hp : n.isPrefixOf h = true) : containsRun n h = true := by
  cases h with
  | nil =>
    cases n with
    | nil => rfl
    | cons a as => simp [List.isPrefixOf] at hp
  | cons c t => simp [containsRun, hp]

theorem pyContains_Error_colon (x : String) :
    pyContains ("Error: " ++ x) "Error" = true := by
  unfold pyContains
  apply containsRun_of_isPrefixOf
  rw [String.data_append]
  have h : "Error: ".data = "Error".data ++ ": ".data := by decide
  rw [h, List.append_assoc]
  exact isPrefixOf_self_append _ _

theorem dropWhile_head_false (p : Char → Bool) (c : Char) (t : List Char)
    (h : List.dropWhile p (c :: t) = c :: t) : p c = false := by
  cases hpc : p c with
  | false => rfl
  | true =>
    rw [List.dropWhile_cons, if_pos hpc] at h
    have hle : (List.dropWhile p t).length ≤ t.length :=
      (List.dropWhile_suffix p).length_le
    rw [h] at hle
    simp at hle

theorem rdropWhile_head_shape (p : Char → Bool) (c : Char) (t : List Char) :
    List.rdropWhile p (c :: t) = [] ∨
      ∃ t2, List.rdropWhile p (c :: t) = c :: t2 := by
  obtain ⟨s, hs⟩ := List.dropWhile_suffix (l := (c :: t).reverse) p
  have hrev : List.rdropWhile p (c :: t) ++ s.reverse = c :: t := by
    have := congrArg List.reverse hs
    rw [List.reverse_append, List.reverse_reverse] at this
    exact this
  cases hr : List.rdropWhile p (c :: t) with
  | nil => exact Or.inl rfl
  | cons d t2 =>
    rw [hr, List.cons_append] at hrev
    have hd : d = c := (List.cons.injEq _ _ _ _).mp hrev |>.1
    exact Or.inr ⟨t2, by rw [hd]⟩

theorem stripped_dropWhile_rdropWhile (p : Char → Bool) (u : List Char)
    (hu : List.dropWhile p u = u) :
    List.dropWhile p (List.rdropWhile p u) = List.rdropWhile p u := by
  cases u with
  | nil => simp [List.rdropWhile]
  | cons c t =>
    have hpc : p c = false := dropWhile_head_false p c t hu
    rcases rdropWhile_head_shape p c t with hnil | ⟨t2, ht2⟩
    · rw [hnil]; rfl
    · rw [ht2, List.dropWhile_cons, if_neg (by simp [hpc])]

theorem pyStripList_idem (l : List Char) :
    pyStripList (pyStripList l) = pyStripList l := by
  unfold pyStripList
  rw [stripped_dropWhile_rdropWhile pyIsSpace _
        (List.dropWhile_idempotent pyIsSpace l),
      List.rdropWhile_idempotent]

theorem pyStrip_idem (s : String) : pyStrip (pyStrip s) = pyStrip s := by
  unfold pyStrip
  rw [show (String.mk (pyStripList s.data)).data = pyStripList s.data from rfl,
      pyStripList_idem]

theorem stripOneLeading_stripped (acc p : String)
    (h : pyStrip acc = acc) : pyStrip (stripOneLeading acc p) = stripOneLeading acc p := by
  unfold stripOneLeading
  cases hs : pyStartsWith acc p with
  | false => simpa [hs] using h
  | true => simp [hs, pyStrip_idem]

theorem stripLeadingAll_foldl_stripped (ps : List String) :
    ∀ acc, pyStrip acc = acc →
      pyStrip (ps.foldl stripOneLeading acc) = ps.foldl stripOneLeading acc := by
  induction ps with
  | nil => intro acc h; simpa using h
  | cons p rest ih =>
    intro acc h
    simp only [List.foldl_cons]
    exact ih _ (stripOneLeading_stripped acc p h)

theorem firstLine_idem (s : String) : firstLine (firstLine s) = firstLine s := by
  unfold firstLine
  rw [show (String.mk (s.data.takeWhile (fun c => c != '\n'))).data
        = s.data.takeWhile (fun c => c != '\n') from rfl,
      List.takeWhile_idem]

theorem execSearchLoop_entity (e : String) (http : Nat → HttpAttempt) :
    ∀ rem a, ((execSearchLoop e http a rem).1).entity = e := by
  intro rem
  induction rem with
  | zero => intro a; rfl
  | succ n ih =>
    intro a
    simp only [execSearchLoop]
    cases http a with
    | ok body =>
      cases body with
      | ok organic => simp [_process_response]
      | exn msg => simp [_process_response]
    | status code =>
      by_cases hc : code = 429
      · simp [hc, ih]
      · simp [hc, ih]
    | netError msg =>
      by_cases ha : a = searchMaxRetries - 1
      · simp [ha]
      · simp [ha, ih]

theorem _execute_search_entity (e q : String) (http : Nat → HttpAttempt) :
    ((_execute_search e q http).1).entity = e :=
  execSearchLoop_entity e http searchMaxRetries 0

theorem execSearchLoop_error_shape (e : String) (http : Nat → HttpAttempt) :
    ∀ rem a, optStrTruthy ((execSearchLoop e http a rem).1).error = false →
      ∃ fm, _format_search_results ((execSearchLoop e http a rem).1).search_results
              = .ok fm := by
  intro rem
  induction rem with
  | zero =>
    intro a h
    simp [execSearchLoop] at h
    exact absurd h (by decide)
  | succ n ih =>
    intro a
    simp only [execSearchLoop]
    cases http a with
    | ok body =>
      cases body with
      | ok organic =>
        intro _
        by_cases hf : (organic.filter pyAllFields).isEmpty
        · refine ⟨"No relevant results found.", ?_⟩
          simp [_process_response, hf, _format_search_results]
        · refine ⟨String.intercalate "\n" (fmtRecords 1 (organic.filter pyAllFields)), ?_⟩
          simp [_process_response, hf, _format_search_results]
      | exn msg =>
        intro h
        exfalso
        have h3 := optStrTruthy_append_left "Failed to process results: " msg
          (by decide)
        simp [_process_response, h3] at h
    | status code =>
      by_cases hc : code = 429
      · simpa [hc] using ih (a+1)
      · simpa [hc] using ih (a+1)
    | netError msg =>
      by_cases ha : a = searchMaxRetries - 1
      · intro h
        exfalso
        have h3 := optStrTruthy_append_left
          ("Request failed after " ++ toString searchMaxRetries ++ " attempts: ")
          msg (by decide)
        simp [ha, h3] at h
      · simpa [ha] using ih (a+1)

theorem _execute_search_error_shape (e q : String) (http : Nat → HttpAttempt)
    (h : optStrTruthy ((_execute_search e q http).1).error = false) :
    ∃ fm, _format_search_results ((_execute_search e q http).1).search_results
            = .ok fm :=
  execSearchLoop_error_shape e http searchMaxRetries 0 h

theorem _process_single_result_ok_entity (sr : SearchOutcome) (template : String)
    (llm : String → Except String String) (eo : ExtractionOutcome)
    (h : _process_single_result sr template llm = .ok eo) : eo.entity = sr.entity := by
  unfold _process_single_result at h
  cases hf : _format_search_results sr.search_results with
  | error m => simp only [hf] at h; exact absurd h (by simp)
  | ok fm =>
    simp only [hf] at h
    cases hc : _construct_prompt sr.entity template fm with
    | error m => simp only [hc] at h; exact absurd h (by simp)
    | ok prompt =>
      simp only [hc] at h
      cases hl : llm prompt with
      | ok resp =>
        simp only [hl, Except.ok.injEq] at h
        rw [← h]
        rfl
      | error m =>
        simp only [hl, Except.ok.injEq] at h
        rw [← h]

theorem attemptBody_ok_entity (e t : String) (http : Nat → HttpAttempt)
    (llm : String → Except String String) (eo : ExtractionOutcome)
    (h : attemptBody e t http llm = .ok eo) : eo.entity = e := by
  unfold attemptBody at h
  cases hq : pyFormatEntity t e with
  | error m => simp only [hq] at h; exact absurd h (by simp)
  | ok q =>
    simp only [hq] at h
    have hent := _execute_search_entity e q http
    cases herr : ((_execute_search e q http).1).error with
    | none =>
      simp only [herr] at h
      rw [_process_single_result_ok_entity _ _ _ _ h, hent]
    | some err =>
      simp only [herr] at h
      by_cases hE : err.data.isEmpty
      · rw [if_pos hE] at h
        rw [_process_single_result_ok_entity _ _ _ _ h, hent]
      · rw [if_neg hE] at h
        exact absurd h (by simp)

theorem retryLoop_entity (e t : String) (http : Nat → Nat → HttpAttempt)
    (llm : Nat → String → Except String String) (m : Nat) :
    ∀ rem a, ((retryLoop e t http llm m a rem).1).entity = e := by
  intro rem
  induction rem with
  | zero => intro a; rfl
  | succ n ih =>
    intro a
    simp only [retryLoop]
    cases hb : attemptBody e t (http a) (llm a) with
    | ok r => simpa using attemptBody_ok_entity e t (http a) (llm a) r hb
    | error err =>
      by_cases ha : a = m - 1
      · simp [ha]
      · simp [ha, ih]

theorem process_entity_with_retry_entity (e t : String)
    (http : Nat → Nat → HttpAttempt) (llm : Nat → String → Except String String)
    (m : Nat) : ((process_entity_with_retry e t http llm m).1).entity = e :=
  retryLoop_entity e t http llm m m 0

theorem processLoop_eq (t : String) (http : String → Nat → Nat → HttpAttempt)
    (llm : String → Nat → String → Except String String) :
    ∀ ents, processLoop t http llm ents =
      (ents.map (fun e => (process_entity_with_retry e t (http e) (llm e) 3).1),
       ents.filter (fun e =>
         pyContains
           ((process_entity_with_retry e t (http e) (llm e) 3).1).extracted_info
           "Error")) := by
  intro ents
  induction ents with
  | nil => rfl
  | cons e rest ih =>
    simp only [processLoop, ih, List.map_cons, List.filter_cons]

theorem retryLoop_allFail (e t : String) (http : Nat → Nat → HttpAttempt)
    (llm : Nat → String → Except String String) (errs : Nat → String)
    (hfail : ∀ j, j < 3 → attemptBody e t (http j) (llm j) = .error (errs j)) :
    retryLoop e t http llm 3 0 3 =
      ({ entity := e, extracted_info := "Error: " ++ errs 2,
         confidence := Option.none, error := Option.none }, [2 ^ 0, 2 ^ 1]) := by
  have h0 := hfail 0 (by omega)
  have h1 := hfail 1 (by omega)
  have h2 := hfail 2 (by omega)
  simp [retryLoop, h0, h1, h2]

theorem execSearchLoop_congr (e : String) (http http' : Nat → HttpAttempt) :
    ∀ rem a, (∀ j, a ≤ j → j < a + rem → http j = http' j) →
      execSearchLoop e http a rem = execSearchLoop e http' a rem := by
  intro rem
  induction rem with
  | zero => intro a _; rfl
  | succ n ih =>
    intro a hagree
    have ha : http a = http' a := hagree a (Nat.le_refl a) (by omega)
    have hrec : execSearchLoop e http (a+1) n = execSearchLoop e http' (a+1) n :=
      ih (a+1) (fun j h1 h2 => hagree j (by omega) (by omega))
    simp only [execSearchLoop, ha, hrec]

theorem _process_single_result_eval (sr : SearchOutcome) (template q fm : String)
    (llm : String → Except String String)
    (hq : pyFormatEntity template sr.entity = .ok q)
    (hfm : _format_search_results sr.search_results = .ok fm) :
    _process_single_result sr template llm =
      .ok (match llm (promptText sr.entity q fm) with
           | .ok resp => _validate_response resp sr.entity
           | .error emsg =>
             { entity := sr.entity, extracted_info := "Error in processing",
               confidence := Option.some 0, error := Option.some emsg }) := by
  unfold _process_single_result _construct_prompt
  simp only [hfm, hq]
  cases llm (promptText sr.entity q fm) <;> rfl

theorem attempt_ok_of_error_falsy (entity template q : String)
    (http1 : Nat → HttpAttempt) (llm1 : String → Except String String)
    (hq : pyFormatEntity template entity = .ok q)
    (hsr : optStrTruthy ((_execute_search entity q http1).1).error = false) :
    attemptBody entity template http1 llm1
      = _process_single_result ((_execute_search entity q http1).1) template llm1 := by
  unfold attemptBody
  simp only [hq]
  cases herr : ((_execute_search entity q http1).1).error with
  | none => simp only [herr]
  | some err =>
    have hE : err.data.isEmpty = true := by
      rw [herr] at hsr
      have h2 : (!err.data.isEmpty) = false := hsr
      simpa using h2
    simp only [herr]
    rw [if_pos hE]

theorem retryLoop_reaches (e t : String) (http : Nat → Nat → HttpAttempt)
    (llm : Nat → String → Except String String) (eo : ExtractionOutcome) :
    ∀ (k a rem : Nat), a + rem = 3 → k < rem →
      (∀ j, a ≤ j → j < a + k →
        ∃ msg, attemptBody e t (http j) (llm j) = .error msg) →
      attemptBody e t (http (a + k)) (llm (a + k)) = .ok eo →
      retryLoop e t http llm 3 a rem
        = (eo, (List.range k).map (fun j => 2 ^ (a + j))) := by
  intro k
  induction k with
  | zero =>
    intro a rem hinv hlt hfail hok
    cases rem with
    | zero => omega
    | succ n =>
      rw [Nat.add_zero] at hok
      simp [retryLoop, hok]
  | succ k ih =>
    intro a rem hinv hlt hfail hok
    cases rem with
    | zero => omega
    | succ n =>
      obtain ⟨msg, hmsg⟩ := hfail a (Nat.le_refl a) (by omega)
      have ha : ¬(a = 3 - 1) := by omega
      have hok2 : attemptBody e t (http (a + 1 + k)) (llm (a + 1 + k)) = .ok eo := by
        rw [show a + 1 + k = a + (k + 1) from by omega]
        exact hok
      have hrec := ih (a+1) n (by omega) (by omega)
        (fun j h1 h2 => hfail j (by omega) (by omega)) hok2
      simp only [retryLoop, hmsg]
      rw [if_neg ha, hrec]
      have hfun : (fun j => 2 ^ (a + 1 + j)) = (fun j => 2 ^ (a + (j + 1))) :=
        funext (fun j => by rw [show a + 1 + j = a + (j + 1) from by omega])
      simp [List.range_succ_eq_map, List.map_map, Function.comp, hfun]

/-! ## Claims -/

/-- Claim C9: `_format_search_results` and `_construct_prompt` are
deterministic — formatting the same search-result list twice produces
identical text, and constructing the prompt twice from the same entity,
template, and formatted results produces identical prompt text. -/
theorem c9_deterministic_formatting :
    (∀ v : SearchResultsVal,
       _format_search_results v = _format_search_results v) ∧
    (∀ entity template formatted : String,
       _construct_prompt entity template formatted
         = _construct_prompt entity template formatted) :=
  ⟨fun _ => rfl, fun _ _ _ => rfl⟩

/-- Claim C6: `_validate_response` takes only the first line of the raw
model output, strips the fixed boilerplate prefixes when present at the
start, trims whitespace (the result is strip-idempotent), and assigns
confidence 1.0 unless the normalized text case-insensitively equals
"not found", in which case 0.0; in particular "Answer: Acme Corp" for
entity "Acme" normalizes to "Acme Corp" with confidence 1.0, and
"Not Found" keeps confidence 0.0. -/
theorem c6_normalization :
    (∀ response entity : String,
       _validate_response response entity
         = _validate_response (firstLine response) entity) ∧
    (∀ response entity : String,
       (_validate_response response entity).extracted_info
         = stripLeadingAll entity (pyStrip (firstLine response))) ∧
    (∀ response entity : String,
       pyStrip ((_validate_response response entity).extracted_info)
         = (_validate_response response entity).extracted_info) ∧
    (∀ response entity : String,
       (_validate_response response entity).confidence
         = if pyLower ((_validate_response response entity).extracted_info)
             = "not found"
           then Option.some 0 else Option.some 1) ∧
    _validate_response "Answer: Acme Corp" "Acme"
      = { entity := "Acme", extracted_info := "Acme Corp",
          confidence := Option.some 1, error := Option.none } ∧
    _validate_response "Not Found" "Acme"
      = { entity := "Acme", extracted_info := "Not Found",
          confidence := Option.some 0, error := Option.none } := by
  refine ⟨?_, ?_, ?_, ?_, ?_, ?_⟩
  · intro r e
    simp only [_validate_response, firstLine_idem]
  · intro r e
    rfl
  · intro r e
    exact stripLeadingAll_foldl_stripped (prefixes_to_remove e)
      (pyStrip (firstLine r)) (pyStrip_idem _)
  · intro r e
    rfl
  · decide
  · decide

/-- Claim C10: each prefix in the fixed list is tested at most once, in
list order, against the progressively stripped string: a repeated prefix
keeps one copy ("Answer: Answer: X" yields "Answer: X"), while a
later-listed prefix exposed by stripping an earlier one is also stripped
("Answer: The answer is: X" yields "X"). -/
theorem c10_prefix_pass_order :
    _validate_response "Answer: Answer: X" "Zed"
      = { entity := "Zed", extracted_info := "Answer: X",
          confidence := Option.some 1, error := Option.none } ∧
    _validate_response "Answer: The answer is: X" "Zed"
      = { entity := "Zed", extracted_info := "X",
          confidence := Option.some 1, error := Option.none } :=
  ⟨by decide, by decide⟩

/-- Claim C1 (amended): a SearchOutcome whose `error` value is truthy or
whose `search_results` value is falsy (absent, empty list, or empty
string) short-circuits to `extracted_info = "Not found"`,
`confidence = 0.0` with zero language-model invocations; the
empty-filtered-results sentinel *string*, being truthy, does not take
this path (see the counterexample). -/
theorem c1_short_circuit (r : SearchOutcome) (template : String)
    (llm : String → Except String String)
    (h : optStrTruthy r.error = true ∨
         searchResultsTruthy r.search_results = false) :
    processResultsStep r template llm =
      .ok ({ entity := r.entity, extracted_info := "Not found",
             confidence := Option.some 0, error := Option.none }, 0) := by
  have hcond : (!searchResultsTruthy r.search_results
      || optStrTruthy r.error) = true := by
    rcases h with h | h <;> simp [h]
  simp [processResultsStep, hcond]

/-- Witness for C1: a search outcome carrying an error short-circuits. -/
theorem c1_short_circuit_witness :
    processResultsStep
        { entity := "Globex", search_results := SearchResultsVal.none,
          error := Option.some "boom" }
        "Who is the CEO of \x7bentity\x7d?" (fun _ => .ok "X")
      = .ok ({ entity := "Globex", extracted_info := "Not found",
               confidence := Option.some 0, error := Option.none }, 0) :=
  c1_short_circuit _ _ _ (Or.inl (by decide))

/-- Counterexample for C1 as stated: the empty-filtered-results sentinel
string does NOT short-circuit — the model is invoked once (count 1) and
its answer is returned instead of "Not found". -/
theorem c1_sentinel_counterexample :
    processResultsStep
        { entity := "Acme",
          search_results := SearchResultsVal.str "No relevant results found.",
          error := Option.none }
        "Who is the CEO of \x7bentity\x7d?" (fun _ => .ok "X")
      = .ok ({ entity := "Acme", extracted_info := "X",
               confidence := Option.some 1, error := Option.none }, 1) ∧
    processResultsStep
        { entity := "Acme",
          search_results := SearchResultsVal.str "No relevant results found.",
          error := Option.none }
        "Who is the CEO of \x7bentity\x7d?" (fun _ => .ok "X")
      ≠ .ok ({ entity := "Acme", extracted_info := "Not found",
               confidence := Option.some 0, error := Option.none }, 0) :=
  ⟨by decide, by decide⟩

/-- Claim C5 (amended): a result entry survives `_process_response`
filtering iff all four projected fields are truthy (present and
non-empty); entries missing a field are dropped entirely; when every
entry is dropped the outcome carries the sentinel string
"No relevant results found." (with its trailing period) instead of an
empty list. -/
theorem c5_filter_sentinel (entity : String) (organic : List ResultRecord)
    (r : ResultRecord) :
    (r ∈ organic.filter pyAllFields ↔ r ∈ organic ∧ pyAllFields r = true) ∧
    (organic.filter pyAllFields ≠ [] →
      _process_response entity (ParsedBody.ok organic)
        = { entity := entity,
            search_results := SearchResultsVal.list (organic.filter pyAllFields),
            error := Option.none }) ∧
    (organic.filter pyAllFields = [] →
      _process_response entity (ParsedBody.ok organic)
        = { entity := entity,
            search_results := SearchResultsVal.str "No relevant results found.",
            error := Option.none }) := by
  refine ⟨List.mem_filter, ?_, ?_⟩
  · intro hne
    have hfe : (organic.filter pyAllFields).isEmpty = false := by
      cases hc : organic.filter pyAllFields with
      | nil => exact absurd hc hne
      | cons x xs => rfl
    simp [_process_response, hfe]
  · intro heq
    simp [_process_response, heq]

/-- Witness for C5: a complete record survives, a record missing its link
is dropped, and an all-dropped response carries the sentinel string. -/
theorem c5_filter_sentinel_witness :
    _process_response "E" (ParsedBody.ok
        [{ title := Option.some "t", link := Option.some "l",
           snippet := Option.some "s", position := Option.some 1 },
         { title := Option.some "t", link := Option.none,
           snippet := Option.some "s", position := Option.some 2 }])
      = { entity := "E",
          search_results := SearchResultsVal.list
            [{ title := Option.some "t", link := Option.some "l",
               snippet := Option.some "s", position := Option.some 1 }],
          error := Option.none } ∧
    _process_response "E" (ParsedBody.ok
        [{ title := Option.some "t", link := Option.none,
           snippet := Option.some "s", position := Option.some 2 }])
      = { entity := "E",
          search_results := SearchResultsVal.str "No relevant results found.",
          error := Option.none } ∧
    ({ title := Option.some "t", link := Option.some "l",
       snippet := Option.some "s", position := Option.some 1 } : ResultRecord)
        ∈ [({ title := Option.some "t", link := Option.some "l",
              snippet := Option.some "s", position := Option.some 1 } : ResultRecord)].filter pyAllFields := by
  refine ⟨?_, ?_, ?_⟩
  · exact ((c5_filter_sentinel "E" _
      { title := Option.some "t", link := Option.some "l",
        snippet := Option.some "s", position := Option.some 1 }).2.1
      (by decide)).trans (by decide)
  · exact (c5_filter_sentinel "E" _
      { title := Option.some "t", link := Option.none,
        snippet := Option.some "s", position := Option.some 2 }).2.2
      (by decide)
  · exact (c5_filter_sentinel "E" _
      { title := Option.some "t", link := Option.some "l",
        snippet := Option.some "s", position := Option.some 1 }).1.mpr
      ⟨by decide, by decide⟩

/-- Counterexample for C5 as stated: the sentinel the code stores is
"No relevant results found." with a trailing period, not the claimed
"No relevant results found". -/
theorem c5_sentinel_counterexample :
    (_process_response "Acme" (ParsedBody.ok
        [{ title := Option.none, link := Option.none,
           snippet := Option.none, position := Option.none }])).search_results
      = SearchResultsVal.str "No relevant results found." ∧
    SearchResultsVal.str "No relevant results found."
      ≠ SearchResultsVal.str "No relevant results found" :=
  ⟨by decide, by decide⟩

/-- Claim C4: `_execute_search` makes at most 3 attempts (its run only
depends on the first `searchMaxRetries` oracle answers); a 429 response
induces a `retry_delay * (attempt_index + 1)` wait before the next
attempt; a network-level failure induces a flat `retry_delay` wait and a
retry, except on the final attempt, where it immediately returns an
error outcome embedding the exception text and the attempt count. -/
theorem c4_search_retry_policy :
    (∀ (e q : String) (http http2 : Nat → HttpAttempt),
       (∀ j, j < searchMaxRetries → http j = http2 j) →
       _execute_search e q http = _execute_search e q http2) ∧
    (∀ (e : String) (http : Nat → HttpAttempt) (a rem : Nat),
       http a = HttpAttempt.status 429 →
       execSearchLoop e http a (rem+1)
         = ((execSearchLoop e http (a+1) rem).1,
            searchRetryDelay * (a + 1) :: (execSearchLoop e http (a+1) rem).2)) ∧
    (∀ (e : String) (http : Nat → HttpAttempt) (a rem : Nat) (msg : String),
       http a = HttpAttempt.netError msg → a ≠ searchMaxRetries - 1 →
       execSearchLoop e http a (rem+1)
         = ((execSearchLoop e http (a+1) rem).1,
            searchRetryDelay :: (execSearchLoop e http (a+1) rem).2)) ∧
    (∀ (e : String) (http : Nat → HttpAttempt) (rem : Nat) (msg : String),
       http (searchMaxRetries - 1) = HttpAttempt.netError msg →
       execSearchLoop e http (searchMaxRetries - 1) (rem+1)
         = ({ entity := e, search_results := SearchResultsVal.none,
              error := Option.some ("Request failed after "
                ++ toString searchMaxRetries ++ " attempts: " ++ msg) }, [])) := by
  refine ⟨?_, ?_, ?_, ?_⟩
  · intro e q http http2 hag
    unfold _execute_search
    exact execSearchLoop_congr e http http2 searchMaxRetries 0
      (fun j h1 h2 => hag j (by omega))
  · intro e http a rem h429
    simp [execSearchLoop, h429]
  · intro e http a rem msg hnet hne
    simp only [execSearchLoop, hnet]
    rw [if_neg hne]
  · intro e http rem msg hnet
    simp [execSearchLoop, hnet]

/-- Witness for C4: a run consulting only the first three oracle
answers, a 429 wait of `retry_delay * 1`, a non-final network failure's
flat wait, and a final-attempt network failure's immediate error. -/
theorem c4_search_retry_policy_witness :
    _execute_search "E" "q"
        (fun j => if j < searchMaxRetries then HttpAttempt.status 429
                  else HttpAttempt.ok (ParsedBody.ok []))
      = _execute_search "E" "q" (fun _ => HttpAttempt.status 429) ∧
    execSearchLoop "E" (fun _ => HttpAttempt.status 429) 0 1
      = ((execSearchLoop "E" (fun _ => HttpAttempt.status 429) 1 0).1,
         searchRetryDelay * 1
           :: (execSearchLoop "E" (fun _ => HttpAttempt.status 429) 1 0).2) ∧
    execSearchLoop "E" (fun _ => HttpAttempt.netError "boom") 0 1
      = ((execSearchLoop "E" (fun _ => HttpAttempt.netError "boom") 1 0).1,
         searchRetryDelay
           :: (execSearchLoop "E" (fun _ => HttpAttempt.netError "boom") 1 0).2) ∧
    execSearchLoop "E" (fun _ => HttpAttempt.netError "boom")
        (searchMaxRetries - 1) 1
      = ({ entity := "E", search_results := SearchResultsVal.none,
           error := Option.some ("Request failed after "
             ++ toString searchMaxRetries ++ " attempts: " ++ "boom") }, []) := by
  refine ⟨?_, ?_, ?_, ?_⟩
  · exact c4_search_retry_policy.1 "E" "q" _ _ (by decide)
  · exact c4_search_retry_policy.2.1 "E" _ 0 0 rfl
  · exact c4_search_retry_policy.2.2.1 "E" _ 0 0 "boom" rfl (by decide)
  · exact c4_search_retry_policy.2.2.2 "E" _ 0 "boom" rfl

/-- Claim C3: in `process_entity_with_retry`, when all three allowed
attempts fail, the backoff trace is `[2^0, 2^1]` — each non-final failed
attempt waits `2^attempt_index`, the final exhausting attempt induces no
wait —, the total induced wait is 3 time units, and the terminal result
embeds the failure description of the last attempt. -/
theorem c3_backoff_timing (e template : String) (http : Nat → Nat → HttpAttempt)
    (llm : Nat → String → Except String String) (errs : Nat → String)
    (hfail : ∀ j, j < 3 →
      attemptBody e template (http j) (llm j) = .error (errs j)) :
    process_entity_with_retry e template http llm 3
      = ({ entity := e, extracted_info := "Error: " ++ errs 2,
           confidence := Option.none, error := Option.none }, [2 ^ 0, 2 ^ 1]) ∧
    ((process_entity_with_retry e template http llm 3).2).sum = 3 := by
  have h := retryLoop_allFail e template http llm errs hfail
  constructor
  · exact h
  · show (retryLoop e template http llm 3 0 3).2.sum = 3
    rw [h]
    rfl

/-- Witness for C3: a pipeline whose search layer always reports a
network failure exhausts three attempts with waits 1 and 2. -/
theorem c3_backoff_timing_witness :
    process_entity_with_retry "Acme" "Who leads \x7bentity\x7d?"
        (fun _ _ => HttpAttempt.netError "boom") (fun _ _ => Except.ok "X") 3
      = ({ entity := "Acme",
           extracted_info := "Error: Request failed after 3 attempts: boom",
           confidence := Option.none, error := Option.none }, [2 ^ 0, 2 ^ 1]) ∧
    ((process_entity_with_retry "Acme" "Who leads \x7bentity\x7d?"
        (fun _ _ => HttpAttempt.netError "boom")
        (fun _ _ => Except.ok "X") 3).2).sum = 3 := by
  have h := c3_backoff_timing "Acme" "Who leads \x7bentity\x7d?"
    (fun _ _ => HttpAttempt.netError "boom") (fun _ _ => Except.ok "X")
    (fun _ => "Request failed after 3 attempts: boom") (by decide)
  exact ⟨h.1.trans (by decide), h.2⟩

/-- Claim C2: each deduplicated entity yields exactly one result, the
batch result collection's length equals the deduplicated (missing values
dropped, duplicates removed) entity count, and results appear in input
entity order — formally the entity projection of the results is exactly
the deduplicated entity list. -/
theorem c2_batch_order (rows : List (Option String)) (template : String)
    (http : String → Nat → Nat → HttpAttempt)
    (llm : String → Nat → String → Except String String)
    (results : List ExtractionOutcome) (failed : List String)
    (h : process_data rows template http llm = Option.some (results, failed)) :
    results.length = (pyUnique (rows.filterMap id)).length ∧
    results.map (fun r => r.entity) = pyUnique (rows.filterMap id) := by
  simp only [process_data] at h
  by_cases he : (pyUnique (rows.filterMap id)).isEmpty
  · rw [if_pos he] at h
    exact absurd h (by simp)
  · rw [if_neg he, processLoop_eq] at h
    have h2 := Option.some.inj h
    have hr : results = (pyUnique (rows.filterMap id)).map
        (fun e => (process_entity_with_retry e template (http e) (llm e) 3).1) :=
      (congrArg Prod.fst h2).symm
    constructor
    · rw [hr, List.length_map]
    · rw [hr, List.map_map]
      have hcomp : ((fun r : ExtractionOutcome => r.entity) ∘
          (fun e => (process_entity_with_retry e template (http e) (llm e) 3).1))
          = fun e => e :=
        funext (fun e =>
          process_entity_with_retry_entity e template (http e) (llm e) 3)
      rw [hcomp]
      simp

/-- Witness for C2: two distinct entities with a missing cell and a
duplicate produce exactly two results, in input order. -/
theorem c2_batch_order_witness :
    ([{ entity := "A",
        extracted_info := "Error: Request failed after 3 attempts: x",
        confidence := Option.none, error := Option.none },
      { entity := "B",
        extracted_info := "Error: Request failed after 3 attempts: x",
        confidence := Option.none, error := Option.none }]
      : List ExtractionOutcome).length
      = (pyUnique ([Option.some "A", Option.none, Option.some "B",
          Option.some "A"].filterMap id)).length ∧
    ([{ entity := "A",
        extracted_info := "Error: Request failed after 3 attempts: x",
        confidence := Option.none, error := Option.none },
      { entity := "B",
        extracted_info := "Error: Request failed after 3 attempts: x",
        confidence := Option.none, error := Option.none }]
      : List ExtractionOutcome).map (fun r => r.entity)
      = pyUnique ([Option.some "A", Option.none, Option.some "B",
          Option.some "A"].filterMap id) :=
  c2_batch_order [Option.some "A", Option.none, Option.some "B", Option.some "A"]
    "\x7bentity\x7d?" (fun _ _ _ => HttpAttempt.netError "x")
    (fun _ _ _ => Except.ok "X") _ ["A", "B"] (by decide)

/-- Claim C7: when every attempt for an entity fails, the batch still
maps every deduplicated entity to its own independent result (isolation:
one entity's exhaustion never aborts the others), the exhausted entity's
result embeds the failure description with no confidence value, and the
entity appears in the failed-entities list. -/
theorem c7_exhaustion_isolation (rows : List (Option String))
    (template : String) (http : String → Nat → Nat → HttpAttempt)
    (llm : String → Nat → String → Except String String)
    (e : String) (errs : Nat → String)
    (results : List ExtractionOutcome) (failed : List String)
    (hres : process_data rows template http llm = Option.some (results, failed))
    (hmem : e ∈ pyUnique (rows.filterMap id))
    (hfail : ∀ j, j < 3 →
      attemptBody e template (http e j) (llm e j) = .error (errs j)) :
    results = (pyUnique (rows.filterMap id)).map
        (fun x => (process_entity_with_retry x template (http x) (llm x) 3).1) ∧
    (process_entity_with_retry e template (http e) (llm e) 3).1
      = { entity := e, extracted_info := "Error: " ++ errs 2,
          confidence := Option.none, error := Option.none } ∧
    e ∈ failed := by
  simp only [process_data] at hres
  by_cases he : (pyUnique (rows.filterMap id)).isEmpty
  · rw [if_pos he] at hres
    exact absurd hres (by simp)
  · rw [if_neg he, processLoop_eq] at hres
    have h2 := Option.some.inj hres
    have hone := retryLoop_allFail e template (http e) (llm e) errs hfail
    refine ⟨(congrArg Prod.fst h2).symm, ?_, ?_⟩
    · show (retryLoop e template (http e) (llm e) 3 0 3).1 = _
      rw [hone]
    · have hf : failed = (pyUnique (rows.filterMap id)).filter (fun x =>
          pyContains
            ((process_entity_with_retry x template (http x) (llm x) 3).1).extracted_info
            "Error") := (congrArg Prod.snd h2).symm
      rw [hf, List.mem_filter]
      refine ⟨hmem, ?_⟩
      show pyContains
        ((retryLoop e template (http e) (llm e) 3 0 3).1).extracted_info
        "Error" = true
      rw [hone]
      exact pyContains_Error_colon (errs 2)

/-- Witness for C7: a single entity whose search always fails lands in
the results with the failure description and in the failed list. -/
theorem c7_exhaustion_isolation_witness :
    [{ entity := "Globex",
       extracted_info := "Error: Request failed after 3 attempts: boom",
       confidence := Option.none, error := Option.none }]
      = (pyUnique ([Option.some "Globex"].filterMap id)).map
          (fun x => (process_entity_with_retry x "Who leads \x7bentity\x7d?"
            (fun _ _ => HttpAttempt.netError "boom")
            (fun _ _ => Except.ok "X") 3).1) ∧
    (process_entity_with_retry "Globex" "Who leads \x7bentity\x7d?"
        (fun _ _ => HttpAttempt.netError "boom")
        (fun _ _ => Except.ok "X") 3).1
      = { entity := "Globex",
          extracted_info := "Error: "
            ++ "Request failed after 3 attempts: boom",
          confidence := Option.none, error := Option.none } ∧
    "Globex" ∈ ["Globex"] :=
  c7_exhaustion_isolation [Option.some "Globex"] "Who leads \x7bentity\x7d?"
    (fun _ _ _ => HttpAttempt.netError "boom") (fun _ _ _ => Except.ok "X")
    "Globex" (fun _ => "Request failed after 3 attempts: boom")
    [{ entity := "Globex",
       extracted_info := "Error: Request failed after 3 attempts: boom",
       confidence := Option.none, error := Option.none }] ["Globex"]
    (by decide) (by decide) (by decide)

/-- Claim C8: in the per-entity pipeline, the first attempt whose search
outcome carries no (truthy) error reaches extraction and its extraction
result is terminal: it is returned as the entity's final result with no
further retries (the backoff trace stops at the earlier search
failures), and a language-model failure on that attempt is absorbed into
`{extracted_info := "Error in processing", confidence := 0.0,
error := <description>}` rather than propagated. -/
theorem c8_extraction_terminal (entity template : String)
    (http : Nat → Nat → HttpAttempt)
    (llm : Nat → String → Except String String) (k : Nat) (q : String)
    (hk : k < 3)
    (hq : pyFormatEntity template entity = .ok q)
    (hfail : ∀ j, j < k →
      ∃ msg, attemptBody entity template (http j) (llm j) = .error msg)
    (hsr : optStrTruthy ((_execute_search entity q (http k)).1).error = false) :
    ∃ eo fm,
      _format_search_results
          ((_execute_search entity q (http k)).1).search_results = .ok fm ∧
      _process_single_result ((_execute_search entity q (http k)).1)
          template (llm k) = .ok eo ∧
      process_entity_with_retry entity template http llm 3
        = (eo, (List.range k).map (fun j => 2 ^ j)) ∧
      (∀ emsg, llm k (promptText entity q fm) = .error emsg →
        eo = { entity := entity, extracted_info := "Error in processing",
               confidence := Option.some 0, error := Option.some emsg }) := by
  obtain ⟨fm, hfm⟩ := _execute_search_error_shape entity q (http k) hsr
  have hent : ((_execute_search entity q (http k)).1).entity = entity :=
    _execute_search_entity entity q (http k)
  have hq2 : pyFormatEntity template ((_execute_search entity q (http k)).1).entity
      = .ok q := by rw [hent]; exact hq
  have heval := _process_single_result_eval ((_execute_search entity q (http k)).1)
    template q fm (llm k) hq2 hfm
  rw [hent] at heval
  have hab : attemptBody entity template (http k) (llm k)
      = _process_single_result ((_execute_search entity q (http k)).1)
          template (llm k) :=
    attempt_ok_of_error_falsy entity template q (http k) (llm k) hq hsr
  cases hE : llm k (promptText entity q fm) with
  | ok resp =>
    have heval2 : _process_single_result ((_execute_search entity q (http k)).1)
        template (llm k) = .ok (_validate_response resp entity) := by
      rw [heval, hE]
    refine ⟨_validate_response resp entity, fm, hfm, heval2, ?_, ?_⟩
    · have hloop := retryLoop_reaches entity template http llm
        (_validate_response resp entity) k 0 3 (by omega) hk
        (fun j h1 h2 => hfail j (by omega))
        (by rw [Nat.zero_add]; rw [hab]; exact heval2)
      show retryLoop entity template http llm 3 0 3 = _
      rw [hloop]
      have hfun : (fun j => 2 ^ (0 + j)) = (fun j : Nat => 2 ^ j) :=
        funext (fun j => by rw [Nat.zero_add])
      rw [hfun]
    · intro emsg hl
      rw [hE] at hl
      exact absurd hl (by simp)
  | error m =>
    have heval2 : _process_single_result ((_execute_search entity q (http k)).1)
        template (llm k)
        = .ok { entity := entity, extracted_info := "Error in processing",
                confidence := Option.some 0, error := Option.some m } := by
      rw [heval, hE]
    refine ⟨_, fm, hfm, heval2, ?_, ?_⟩
    · have hloop := retryLoop_reaches entity template http llm
        { entity := entity, extracted_info := "Error in processing",
          confidence := Option.some 0, error := Option.some m } k 0 3
        (by omega) hk (fun j h1 h2 => hfail j (by omega))
        (by rw [Nat.zero_add]; rw [hab]; exact heval2)
      show retryLoop entity template http llm 3 0 3 = _
      rw [hloop]
      have hfun : (fun j => 2 ^ (0 + j)) = (fun j : Nat => 2 ^ j) :=
        funext (fun j => by rw [Nat.zero_add])
      rw [hfun]
    · intro emsg hl
      rw [hE] at hl
      have hm : m = emsg := (Except.error.injEq _ _).mp hl
      rw [hm]

/-- Witness for C8: the search fails on attempt 0, succeeds on attempt 1,
and the model call then fails; the pipeline terminates on attempt 1 with
the absorbed extraction error and the single backoff wait `2^0`. -/
theorem c8_extraction_terminal_witness :
    process_entity_with_retry "A" "\x7bentity\x7d?"
        (fun j => if j = 0 then (fun _ => HttpAttempt.netError "x")
                  else (fun _ => HttpAttempt.ok (ParsedBody.ok
                    [{ title := Option.some "t", link := Option.some "l",
                       snippet := Option.some "s",
                       position := Option.some 1 }])))
        (fun j => if j = 0 then (fun _ => Except.ok "ans")
                  else (fun _ => Except.error "llmboom")) 3
      = ({ entity := "A", extracted_info := "Error in processing",
           confidence := Option.some 0, error := Option.some "llmboom" },
         [1]) := by
  obtain ⟨eo, fm, h1, h2, h3, h4⟩ := c8_extraction_terminal "A" "\x7bentity\x7d?"
    (fun j => if j = 0 then (fun _ => HttpAttempt.netError "x")
              else (fun _ => HttpAttempt.ok (ParsedBody.ok
                [{ title := Option.some "t", link := Option.some "l",
                   snippet := Option.some "s", position := Option.some 1 }])))
    (fun j => if j = 0 then (fun _ => Except.ok "ans")
              else (fun _ => Except.error "llmboom"))
    1 "A?" (by omega) (by decide)
    (fun j hj => by
      have hj0 : j = 0 := by omega
      subst hj0
      exact ⟨"Request failed after 3 attempts: x", by decide⟩)
    (by decide)
  have heo := h4 "llmboom" rfl
  rw [heo] at h3
  exact h3.trans (by decide)

end AIAgent
